import Mathlib

/-!
Verification development for the TruthFort news-detection backend
(`src/main.py`). The file shallowly embeds the three components the
claims concern:

* the article fetcher `NewsVerifier.get_news_articles`,
* the similarity scorer `NewsVerifier.verify_statement`, and
* the sqlite-backed user store (`create_user`, `get_user`) together with
  the `register` and `login` endpoints.

External effects are made explicit parameters:

* the outbound HTTP call made by the fetcher becomes an `HttpOutcome`
  value (a raised exception, or a status code plus the parsed JSON
  article list);
* the scikit-learn vectorize-and-cosine step becomes an oracle
  `vec : List String → Except String (List ℚ)` mapping the joint corpus
  `[statement] ++ articles` to the per-article similarity row (`.error`
  models a raised exception);
* the password hash (`hashlib.sha256(...).hexdigest()`) becomes an
  arbitrary function `hash : String → String`, matching the spec, which
  treats the hash as a pluggable primitive.

Numeric values (float similarities and confidences) are embedded as
exact rationals.
-/

namespace TruthFort

/-! ### Rounding

`round(conf, 2)` in Python rounds to 2 decimal places with ties going to
the even neighbour (banker rounding); we model it exactly on ℚ. -/

/-- Round a rational to the nearest integer, ties to the even neighbour. -/
def roundHalfEven (q : ℚ) : ℤ :=
  let n := ⌊q⌋
  let r := q - n
  if r < 1/2 then n
  else if 1/2 < r then n + 1
  else if n % 2 = 0 then n else n + 1

/-- Model of Python `round(q, 2)`. -/
def round2 (q : ℚ) : ℚ := (roundHalfEven (q * 100) : ℚ) / 100

/-- Model of Python `str.strip()`: remove leading and trailing
whitespace.  Defined on the character list so that it reduces in the
kernel. -/
def pyStrip (s : String) : String :=
  ⟨((s.data.dropWhile Char.isWhitespace).reverse.dropWhile
      Char.isWhitespace).reverse⟩

/-! ### Article fetcher (`NewsVerifier.get_news_articles`, main.py 78-100) -/

/-- One item of the provider JSON `articles` array.  `none` models an
absent key (`a.get(k)` returning `None`); `some ""` an empty string. -/
structure Article where
  title : Option String
  description : Option String
deriving Repr, DecidableEq

/-- Python truthiness of `a.get(k)`: `None` and `""` are falsy. -/
def truthy : Option String → Bool
  | none => false
  | some s => s ≠ ""

/-- Projection `f"{a.get('title','')} {a.get('description','')}".strip()`. -/
def Article.text (a : Article) : String :=
  pyStrip ((a.title.getD "") ++ " " ++ (a.description.getD ""))

/-- Outcome of the single outbound `requests.get` call: either an
exception was raised (during the request or JSON parsing), or a response
arrived with a status code and a parsed `articles` array. -/
inductive HttpOutcome where
  | exn (msg : String)
  | response (status : Nat) (articles : List Article)
deriving Repr, DecidableEq

/-- Hard-coded demo list returned when no API key is configured
(main.py 81-85). -/
def demoArticles : List String :=
  ["Breaking news: Sample article about the query",
   "Latest updates on the topic from various sources",
   "Verified information from trusted news outlets"]

/-- Placeholder returned on a non-success response or an exception
(main.py 100). -/
def unavailableArticles : List String :=
  ["Temporary data source unavailable - using demo mode"]

/-- Placeholder returned when the provider answered 200 but the filtered
article list is empty (main.py 97). -/
def noDetailedArticles : List String :=
  ["No detailed articles found for this query"]

/-- Embedding of `NewsVerifier.get_news_articles` (main.py 78-100).
`key` is the `NEWS_API_KEY` environment value (`none` = unset, and
`if not NEWS_API_KEY` also treats `""` as unset); `http` is the outcome
of the single outbound call; the query only selects which URL is
fetched, which the `HttpOutcome` parameter already determines. -/
def get_news_articles (key : Option String) (http : HttpOutcome)
    (_query : String) : List String :=
  if ¬ truthy key then demoArticles
  else
    match http with
    | .exn _ => unavailableArticles
    | .response status arts =>
      if status = 200 then
        let articles :=
          (arts.filter (fun a => truthy a.title && truthy a.description)).map
            Article.text
        if articles = [] then noDetailedArticles else articles
      else unavailableArticles

/-! ### Similarity scorer (`NewsVerifier.verify_statement`, main.py 102-142) -/

/-- Result dictionary of `verify_statement`.  `articles_analyzed` is
`none` when the key is absent from the returned dict (the empty-articles
fallback and the error result omit it). -/
structure VerificationResult where
  verification : String
  confidence : ℚ
  statement : String
  reason : String
  sources : List String
  articles_analyzed : Option Nat
deriving Repr, DecidableEq

/-- Fixed fallback returned when the fetched article list is empty
(main.py 105-112). -/
def emptyFallback (statement : String) : VerificationResult :=
  { verification := "Uncertain"
    confidence := 50
    statement := statement
    reason := "Limited data available for verification. Please try with a more specific statement."
    sources := ["Data source temporarily unavailable"]
    articles_analyzed := none }

/-- Error result returned when vectorization or similarity raises
(main.py 135-142). -/
def errorResult (statement msg : String) : VerificationResult :=
  { verification := "Error"
    confidence := 0
    statement := statement
    reason := "Analysis error: " ++ msg
    sources := []
    articles_analyzed := none }

/-- `sims.max()` of a NumPy row, as a list maximum (the code only calls
it on a non-empty row; the default for `[]` is irrelevant to the
theorems, which all assume non-emptiness). -/
def maxSim : List ℚ → ℚ
  | [] => 0
  | x :: xs => xs.foldl max x

/-- `sims.mean()`: sum divided by length. -/
def avgSim (sims : List ℚ) : ℚ := sims.sum / sims.length

/-- The verdict/confidence computation and result assembly on the
successful vectorization path (main.py 116-134, after `fit_transform`
and `cosine_similarity` produced the row `sims`). -/
def scoreSims (statement : String) (articles : List String)
    (sims : List ℚ) : VerificationResult :=
  let mx := maxSim sims
  let avg := avgSim sims
  let vc : String × ℚ :=
    if mx > 0.4 then ("Likely True", min (mx * 100) 95)
    else if mx > 0.2 then ("Uncertain", min (mx * 80) 75)
    else ("Likely False", min ((1 - avg) * 60) 70)
  { verification := vc.1
    confidence := round2 vc.2
    statement := statement
    reason := "Analysis of " ++ toString articles.length ++ " articles shows "
      ++ vc.1.toLower ++ " correlation with available sources."
    sources := articles.take 3
    articles_analyzed := some articles.length }

/-- The body of `verify_statement` after the empty-articles check: the
`try` block applies the vectorization oracle to `[statement] + articles`
and scores, the `except` arm produces the error result. -/
def scoreNonEmpty (vec : List String → Except String (List ℚ))
    (statement : String) (articles : List String) : VerificationResult :=
  match vec (statement :: articles) with
  | .ok sims => scoreSims statement articles sims
  | .error e => errorResult statement e

/-- The scorer on an already-fetched article list: the empty-articles
short-circuit (main.py 105-112) followed by `scoreNonEmpty`. -/
def scoreArticles (vec : List String → Except String (List ℚ))
    (statement : String) (articles : List String) : VerificationResult :=
  if articles = [] then emptyFallback statement
  else scoreNonEmpty vec statement articles

/-- Embedding of `NewsVerifier.verify_statement` (main.py 102-142):
fetch articles for the statement, then score. -/
def verify_statement (key : Option String) (http : HttpOutcome)
    (vec : List String → Except String (List ℚ))
    (statement : String) : VerificationResult :=
  scoreArticles vec statement (get_news_articles key http statement)

/-! ### User store (main.py 31-68) -/

/-- One row of the `users` table.  The `created_at` and `last_reset`
columns (defaulted timestamps, never read by any modelled operation) are
omitted. -/
structure User where
  id : Nat
  name : String
  email : String
  password_hash : String
  subscription : String
  usage_count : Nat
deriving Repr, DecidableEq

/-- The `users` table, in insertion order (sqlite `fetchone` on the
unconditioned `SELECT ... WHERE email=?` returns the first matching row
in that order). -/
abbrev Db := List User

/-- Embedding of `get_user` (main.py 50-56). -/
def get_user (db : Db) (email : String) : Option User :=
  db.find? (fun u => u.email = email)

/-- Embedding of `create_user` (main.py 58-68).  `hash` models
`hash_password`.  The sqlite `UNIQUE` constraint on `email` raises
`IntegrityError` exactly when a row with the same email already exists,
which the function catches and reports as `false`; otherwise the row is
inserted with the defaults `subscription='Free'`, `usage_count=5` and a
fresh autoincrement id.  Returns the table after the call and the
boolean result. -/
def create_user (hash : String → String) (db : Db)
    (name email password : String) : Db × Bool :=
  if db.any (fun u => u.email = email) then (db, false)
  else (db ++ [{ id := db.length + 1, name := name, email := email,
                 password_hash := hash password, subscription := "Free",
                 usage_count := 5 }], true)

/-! ### HTTP surface (main.py 162-226)

Each endpoint is a function from an optional parsed JSON body (`none`
models `request.get_json()` yielding no data) to an HTTP status code and
a response payload.  Absent body fields are modelled as `""`, which is
what `data.get(k, '')` produces for them. -/

/-- JSON payload of the `register` and `login` responses. -/
inductive AuthResponse where
  /-- `{'success': False, 'message': msg}` -/
  | failure (message : String)
  /-- `{'success': True}` -/
  | ok
  /-- `{'success': True, 'user': {...}}` with the four public fields. -/
  | okUser (name email subscription : String) (usage_count : Nat)
deriving Repr, DecidableEq

/-- Strings occurring in an auth response body. -/
def AuthResponse.strings : AuthResponse → List String
  | .failure m => [m]
  | .ok => []
  | .okUser n e s _ => [n, e, s]

structure RegisterBody where
  name : String
  email : String
  password : String
deriving Repr, DecidableEq

structure LoginBody where
  email : String
  password : String
deriving Repr, DecidableEq

/-- Embedding of the `register` endpoint (main.py 178-197).  Returns the
table after the request, the HTTP status and the payload.  Note the
empty-field rejection carries no explicit status code, so Flask answers
200. -/
def register (hash : String → String) (db : Db)
    (body : Option RegisterBody) : Db × Nat × AuthResponse :=
  match body with
  | none => (db, 400, .failure "No data provided")
  | some b =>
    let name := pyStrip b.name
    let email := pyStrip b.email
    let password := pyStrip b.password
    if name = "" ∨ email = "" ∨ password = "" then
      (db, 200, .failure "All fields are required")
    else
      match create_user hash db name email password with
      | (db2, true) => (db2, 200, .ok)
      | (db2, false) => (db2, 200, .failure "Email already exists")

/-- Embedding of the `login` endpoint (main.py 199-226). -/
def login (hash : String → String) (db : Db)
    (body : Option LoginBody) : Nat × AuthResponse :=
  match body with
  | none => (400, .failure "No data provided")
  | some b =>
    let email := pyStrip b.email
    let password := pyStrip b.password
    match get_user db email with
    | none => (200, .failure "User not found")
    | some u =>
      if hash password ≠ u.password_hash then (200, .failure "Invalid password")
      else (200, .okUser u.name u.email u.subscription u.usage_count)

/-- JSON payload of the `verify` endpoint. -/
inductive VerifyResponse where
  | err (message : String)
  | result (r : VerificationResult)
deriving Repr, DecidableEq

structure VerifyBody where
  claim : String
deriving Repr, DecidableEq

/-- Embedding of the `verify` endpoint (main.py 162-176). -/
def verify (key : Option String) (http : HttpOutcome)
    (vec : List String → Except String (List ℚ))
    (body : Option VerifyBody) : Nat × VerifyResponse :=
  match body with
  | none => (400, .err "No JSON data provided")
  | some b =>
    let claim := pyStrip b.claim
    if claim = "" then (400, .err "No claim provided")
    else (200, .result (verify_statement key http vec claim))

/-! ### Term-frequency model of the vectorize-and-cosine step

`TfidfVectorizer(stop_words='english')` tokenizes each text, drops the
English stop words, and maps each document to the vector
`t ↦ tf(t, doc) * idf(t)` over the corpus vocabulary, which
`cosine_similarity` then compares by `dot u v / (‖u‖ * ‖v‖)`.  We model
a document as its token list after tokenization and stop-word removal
(the tokenizer is an external library detail), keep the idf weights
abstract (they are logarithms, hence irrational, and no claim depends on
their values), and keep the Euclidean norm abstract through a function
`sq` standing for the square root applied to the self-dot-product. -/

/-- A document as its list of tokens after tokenization and stop-word
removal. -/
abbrev Doc := List String

/-- The tf-idf weight of term `t` in document `d`: raw count times the
inverse document frequency. -/
def tfidf (idf : String → ℚ) (d : Doc) (t : String) : ℚ :=
  (d.count t : ℚ) * idf t

/-- Dot product of two term-weight vectors over the vocabulary `V`. -/
def dotV (V : List String) (w1 w2 : String → ℚ) : ℚ :=
  (V.map fun t => w1 t * w2 t).sum

/-- Cosine similarity of the tf-idf vectors of `d1` and `d2`:
`dot / (‖d1‖ * ‖d2‖)`, with `sq` abstracting the square root used in the
norms (its values never matter for the claims proved here, because a
zero dot product forces a zero similarity whatever the denominator, ℚ
division by 0 included). -/
def cosineSim (sq : ℚ → ℚ) (V : List String) (idf : String → ℚ)
    (d1 d2 : Doc) : ℚ :=
  dotV V (tfidf idf d1) (tfidf idf d2) /
    (sq (dotV V (tfidf idf d1) (tfidf idf d1)) *
     sq (dotV V (tfidf idf d2) (tfidf idf d2)))

/-- Email uniqueness invariant of the `users` table (the sqlite `UNIQUE`
constraint on the `email` column). -/
def emailsUnique (db : Db) : Prop :=
  db.Pairwise (fun u v => u.email ≠ v.email)

/-! ### Concrete instances used by the witnesses -/

/-- A concrete stand-in hash for witnesses and counterexamples (the real
`hash_password` is sha256, injective on all inputs occurring here). -/
def cxHash (s : String) : String := "#" ++ s

/-- A concrete stored row used by witnesses. -/
def cxUser : User :=
  { id := 1, name := "n", email := "a@b", password_hash := "#pw",
    subscription := "Free", usage_count := 5 }

/-- A concrete vectorization oracle reporting the cosine similarities of
the one-token documents `["aa"]` (statement) and `["bb"]` (article). -/
def c9vec : List String → Except String (List ℚ) :=
  fun _ => .ok (([["bb"]] : List Doc).map
    (fun a => cosineSim id ["aa", "bb"] (fun _ => 1) ["aa"] a))

/-! ## Theorems -/

/-- Every branch of the article fetcher returns a non-empty list: the
demo list has 3 entries, both placeholder lists have 1, and the
successful-response branch only returns the projected article list when
it is non-empty. -/
theorem get_news_articles_ne_nil (key : Option String) (http : HttpOutcome)
    (q : String) : get_news_articles key http q ≠ [] := by
  unfold get_news_articles
  split
  · simp [demoArticles]
  · cases http with
    | exn m => simp [unavailableArticles]
    | response s arts =>
      simp only
      split
      · split
        · simp [noDetailedArticles]
        · assumption
      · simp [unavailableArticles]

/-- C2: for every statement and every vectorization oracle, the scorer
on an empty article list returns exactly the fixed Uncertain/50.0
fallback with the canned rationale; since the result is the same for
every oracle, no vectorization is attempted. -/
theorem C2_empty_articles_fallback
    (vec : List String → Except String (List ℚ)) (statement : String) :
    scoreArticles vec statement [] =
      { verification := "Uncertain", confidence := 50, statement := statement,
        reason := "Limited data available for verification. Please try with a more specific statement.",
        sources := ["Data source temporarily unavailable"],
        articles_analyzed := none } := by
  simp [scoreArticles, emptyFallback]

/-- C8: for every statement and non-empty article list, if the
vectorization oracle raises, the scorer returns verdict Error,
confidence 0 and an empty source list, without retrying or re-raising
(it is a total function of the single oracle outcome). -/
theorem C8_vectorization_exception
    (vec : List String → Except String (List ℚ))
    (statement : String) (articles : List String) (e : String)
    (hne : articles ≠ []) (hvec : vec (statement :: articles) = .error e) :
    scoreArticles vec statement articles =
      { verification := "Error", confidence := 0, statement := statement,
        reason := "Analysis error: " ++ e, sources := [],
        articles_analyzed := none } := by
  simp [scoreArticles, scoreNonEmpty, hne, hvec, errorResult]

/-- Witness for C8 at a concrete raising oracle. -/
theorem C8_witness :
    ((["art"] : List String) ≠ [] ∧
      (fun _ : List String => (Except.error "boom" : Except String (List ℚ)))
          ("s" :: ["art"]) = .error "boom") ∧
    scoreArticles (fun _ => .error "boom") "s" ["art"] =
      { verification := "Error", confidence := 0, statement := "s",
        reason := "Analysis error: " ++ "boom", sources := [],
        articles_analyzed := none } :=
  ⟨⟨by simp, rfl⟩,
    C8_vectorization_exception (fun _ => .error "boom") "s" ["art"] "boom"
      (by simp) rfl⟩

/-- C1: for every statement and non-empty article list on which
vectorization succeeds with similarity row `sims`, the verdict and
confidence follow the fixed table, first matching row wins, and the
returned confidence is the table value rounded to 2 decimal places. -/
theorem C1_verdict_table (vec : List String → Except String (List ℚ))
    (statement : String) (articles : List String) (sims : List ℚ)
    (hne : articles ≠ []) (hvec : vec (statement :: articles) = .ok sims)
    (_hlen : sims.length = articles.length) :
    (maxSim sims > 0.4 →
        (scoreArticles vec statement articles).verification = "Likely True" ∧
        (scoreArticles vec statement articles).confidence =
          round2 (min (maxSim sims * 100) 95)) ∧
    (¬ maxSim sims > 0.4 → maxSim sims > 0.2 →
        (scoreArticles vec statement articles).verification = "Uncertain" ∧
        (scoreArticles vec statement articles).confidence =
          round2 (min (maxSim sims * 80) 75)) ∧
    (¬ maxSim sims > 0.4 → ¬ maxSim sims > 0.2 →
        (scoreArticles vec statement articles).verification = "Likely False" ∧
        (scoreArticles vec statement articles).confidence =
          round2 (min ((1 - avgSim sims) * 60) 70)) := by
  have h : scoreArticles vec statement articles =
      scoreSims statement articles sims := by
    simp [scoreArticles, scoreNonEmpty, hne, hvec]
  rw [h]
  refine ⟨fun h1 => ?_, fun h1 h2 => ?_, fun h1 h2 => ?_⟩ <;>
    simp [scoreSims, h1, *]

/-- Witness for C1 on a one-article list with similarity 1/2, landing in
the Likely True row. -/
theorem C1_witness :
    ((["art"] : List String) ≠ [] ∧
      (fun _ : List String => (Except.ok [(1 : ℚ)/2] : Except String (List ℚ)))
          ("s" :: ["art"]) = .ok [(1 : ℚ)/2] ∧
      ([(1 : ℚ)/2] : List ℚ).length = (["art"] : List String).length ∧
      maxSim [(1 : ℚ)/2] > 0.4) ∧
    ((scoreArticles (fun _ => .ok [(1 : ℚ)/2]) "s" ["art"]).verification =
        "Likely True" ∧
      (scoreArticles (fun _ => .ok [(1 : ℚ)/2]) "s" ["art"]).confidence =
        round2 (min (maxSim [(1 : ℚ)/2] * 100) 95)) :=
  ⟨⟨by simp, rfl, rfl, by norm_num [maxSim]⟩,
    (C1_verdict_table (fun _ => .ok [(1 : ℚ)/2]) "s" ["art"] [(1 : ℚ)/2]
        (by simp) rfl rfl).1 (by norm_num [maxSim])⟩

/-- C3: the article fetcher never propagates an error: without a
configured credential it returns the hard-coded demo list, and with one
it returns the fixed placeholder lists on an exception, a non-200
response, or an empty filtered result set. -/
theorem C3_fetch_never_fails (key : Option String) (http : HttpOutcome)
    (q : String) :
    (¬ truthy key → get_news_articles key http q = demoArticles) ∧
    (∀ e, truthy key → http = .exn e →
        get_news_articles key http q = unavailableArticles) ∧
    (∀ s arts, truthy key → http = .response s arts → s ≠ 200 →
        get_news_articles key http q = unavailableArticles) ∧
    (∀ arts, truthy key → http = .response 200 arts →
        (arts.filter (fun a => truthy a.title && truthy a.description)).map
            Article.text = [] →
        get_news_articles key http q = noDetailedArticles) := by
  refine ⟨fun hk => ?_, fun e hk he => ?_, fun s arts hk hr hs => ?_,
      fun arts hk hr hf => ?_⟩
  · simp [get_news_articles, hk]
  · subst he; simp [get_news_articles, hk]
  · subst hr; simp [get_news_articles, hk, hs]
  · subst hr; simp [get_news_articles, hk, hf]

/-- Witness for C3 exercising all four fallback branches concretely. -/
theorem C3_witness :
    (¬ truthy (none : Option String) ∧
      get_news_articles none (.exn "boom") "q" = demoArticles) ∧
    (truthy (some "k") ∧
      get_news_articles (some "k") (.exn "boom") "q" = unavailableArticles) ∧
    ((500 : Nat) ≠ 200 ∧
      get_news_articles (some "k") (.response 500 []) "q" =
        unavailableArticles) ∧
    get_news_articles (some "k") (.response 200 []) "q" =
      noDetailedArticles :=
  ⟨⟨by decide, (C3_fetch_never_fails none (.exn "boom") "q").1 (by decide)⟩,
   ⟨by decide,
     (C3_fetch_never_fails (some "k") (.exn "boom") "q").2.1 "boom"
       (by decide) rfl⟩,
   ⟨by decide,
     (C3_fetch_never_fails (some "k") (.response 500 []) "q").2.2.1 500 []
       (by decide) rfl (by decide)⟩,
   (C3_fetch_never_fails (some "k") (.response 200 []) "q").2.2.2 []
     (by decide) rfl rfl⟩

/-- C10: the fetcher returns a non-empty list on every input, so the
empty-articles short-circuit of `verify_statement` is unreachable: the
full pipeline always equals the non-empty scoring path applied to the
fetched articles. -/
theorem C10_no_empty_shortcircuit (key : Option String) (http : HttpOutcome)
    (vec : List String → Except String (List ℚ)) (statement q : String) :
    get_news_articles key http q ≠ [] ∧
    verify_statement key http vec statement =
      scoreNonEmpty vec statement (get_news_articles key http statement) := by
  refine ⟨get_news_articles_ne_nil key http q, ?_⟩
  simp [verify_statement, scoreArticles,
    get_news_articles_ne_nil key http statement]

/-- C4: email uniqueness is preserved by `create_user` (the only table
mutator), and an insert whose email already exists returns `false` and
leaves the table, hence the previously inserted row, unchanged. -/
theorem C4_email_uniqueness (hash : String → String) (db : Db)
    (n e p : String) (hU : emailsUnique db) :
    emailsUnique (create_user hash db n e p).1 ∧
    ((∃ u ∈ db, u.email = e) → create_user hash db n e p = (db, false)) := by
  constructor
  · by_cases h : db.any (fun u => u.email = e)
    · simpa [create_user, h] using hU
    · have hall : ∀ u ∈ db, u.email ≠ e := by
        simpa [List.any_eq_true] using h
      simp only [create_user, h]
      rw [if_neg (by simp [List.any_eq_true, hall])]
      refine List.pairwise_append.mpr ⟨hU, List.pairwise_singleton _ _, ?_⟩
      intro x hx y hy
      simp only [List.mem_singleton] at hy
      subst hy
      simpa using hall x hx
  · rintro ⟨u, hu, hue⟩
    have h : db.any (fun u => u.email = e) = true := by
      simp only [List.any_eq_true]
      exact ⟨u, hu, by simp [hue]⟩
    simp [create_user, h]

/-- Witness for C4 on the empty table. -/
theorem C4_witness :
    emailsUnique ([] : Db) ∧
    (emailsUnique (create_user cxHash [] "n" "a@b" "pw").1 ∧
      ((∃ u ∈ ([] : Db), u.email = "a@b") →
        create_user cxHash [] "n" "a@b" "pw" = ([], false))) :=
  ⟨List.Pairwise.nil, C4_email_uniqueness cxHash [] "n" "a@b" "pw"
    List.Pairwise.nil⟩

/-- C5 counterexample: `create_user` stores the hash of the password
exactly as supplied, but the `login` endpoint strips the supplied
password before hashing, so a user created with the untrimmed password
`" pw"` cannot log in with that exact password: the call lands in the
Invalid password outcome instead of succeeding. -/
theorem C5_counterexample :
    (create_user cxHash [] "n" "a@b" " pw").2 = true ∧
    login cxHash (create_user cxHash [] "n" "a@b" " pw").1
        (some { email := "a@b", password := " pw" }) =
      (200, .failure "Invalid password") := by
  decide

/-- C5 (amended): for every name, email and password whose email and
password are fixed by stripping (the login endpoint strips both), after
a successful `create_user` the login with that email and exact password
succeeds with the stored user object, and a login with any stripped
password whose hash differs from the stored hash fails with the Invalid
password outcome. -/
theorem C5_roundtrip (hash : String → String) (db : Db)
    (n e p : String) (he : pyStrip e = e) (hp : pyStrip p = p)
    (hsucc : (create_user hash db n e p).2 = true) :
    login hash (create_user hash db n e p).1
        (some { email := e, password := p }) =
      (200, .okUser n e "Free" 5) ∧
    (∀ p2 : String, pyStrip p2 = p2 → hash p2 ≠ hash p →
      login hash (create_user hash db n e p).1
          (some { email := e, password := p2 }) =
        (200, .failure "Invalid password")) := by
  by_cases h : db.any (fun u => u.email = e)
  · exfalso
    simp [create_user, h] at hsucc
  · have hall : ∀ u ∈ db, u.email ≠ e := by
      simpa [List.any_eq_true] using h
    have hdb1 : (create_user hash db n e p).1 =
        db ++ [{ id := db.length + 1, name := n, email := e,
                 password_hash := hash p, subscription := "Free",
                 usage_count := 5 }] := by
      simp only [create_user]
      rw [if_neg (by simpa [List.any_eq_true] using hall)]
    have hfind : get_user (create_user hash db n e p).1 e =
        some { id := db.length + 1, name := n, email := e,
               password_hash := hash p, subscription := "Free",
               usage_count := 5 } := by
      rw [hdb1, get_user, List.find?_append]
      have h1 : db.find? (fun u => u.email = e) = none :=
        List.find?_eq_none.mpr (fun x hx => by simpa using hall x hx)
      simp [h1, List.find?]
    constructor
    · simp [login, he, hp, hfind]
    · intro p2 hp2 hps
      simp [login, he, hp2, hfind, hps]

/-- Witness for C5 (amended) at stripped concrete credentials. -/
theorem C5_witness :
    (pyStrip "a@b" = "a@b" ∧ pyStrip "pw" = "pw" ∧
      (create_user cxHash [] "n" "a@b" "pw").2 = true) ∧
    login cxHash (create_user cxHash [] "n" "a@b" "pw").1
        (some { email := "a@b", password := "pw" }) =
      (200, .okUser "n" "a@b" "Free" 5) :=
  ⟨⟨by decide, by decide, rfl⟩,
    (C5_roundtrip cxHash [] "n" "a@b" "pw" (by decide) (by decide) rfl).1⟩

/-- C6: a login for an email with no row yields the distinguishable User
not found outcome; one with a row but a differing supplied-password hash
yields the distinguishable Invalid password outcome; and any string
distinct from the fixed messages and from every stored public field (in
particular a stored password hash, which the code never copies into a
response) occurs in no login response. -/
theorem C6_login_outcomes (hash : String → String) (db : Db)
    (b : LoginBody) :
    (get_user db (pyStrip b.email) = none →
        login hash db (some b) = (200, .failure "User not found")) ∧
    (∀ u, get_user db (pyStrip b.email) = some u →
        hash (pyStrip b.password) ≠ u.password_hash →
        login hash db (some b) = (200, .failure "Invalid password")) ∧
    (∀ h : String,
        h ∉ ["No data provided", "User not found", "Invalid password"] →
        (∀ v ∈ db, h ≠ v.name ∧ h ≠ v.email ∧ h ≠ v.subscription) →
        ∀ body : Option LoginBody, h ∉ (login hash db body).2.strings) := by
  refine ⟨fun h0 => ?_, fun u hu hne => ?_, fun h hmsg hdb body => ?_⟩
  · simp [login, h0]
  · simp [login, hu, hne]
  · simp only [List.mem_cons, List.not_mem_nil, or_false, not_or] at hmsg
    obtain ⟨hm1, hm2, hm3⟩ := hmsg
    cases body with
    | none => simp [login, AuthResponse.strings, hm1]
    | some b2 =>
      simp only [login]
      cases hget : get_user db (pyStrip b2.email) with
      | none => simp [AuthResponse.strings, hm2]
      | some u =>
        have hmem : u ∈ db := List.mem_of_find?_eq_some hget
        obtain ⟨hn, he, hs⟩ := hdb u hmem
        by_cases hpw : hash (pyStrip b2.password) ≠ u.password_hash
        · simp [hpw, AuthResponse.strings, hm3]
        · simp [hpw, AuthResponse.strings, hn, he, hs]

/-- Witness for C6 on a one-row table with a wrong password and a
fresh hash string. -/
theorem C6_witness :
    (get_user [cxUser] (pyStrip "a@b") = some cxUser ∧
      cxHash (pyStrip "bad") ≠ cxUser.password_hash) ∧
    login cxHash [cxUser] (some { email := "a@b", password := "bad" }) =
      (200, .failure "Invalid password") :=
  ⟨⟨by decide, by decide⟩,
    (C6_login_outcomes cxHash [cxUser]
        { email := "a@b", password := "bad" }).2.1
      cxUser (by decide) (by decide)⟩

/-- C7 counterexample: a register request with an empty required field
is answered with HTTP status 200 (the empty-field rejection carries no
explicit status code), not a 4xx status as claimed. -/
theorem C7_counterexample :
    register cxHash []
        (some { name := "Alice", email := "", password := "pw" }) =
      ([], 200, .failure "All fields are required") ∧
    ¬ (400 ≤ 200 ∧ 200 < 500) := by
  decide

/-- C7 (amended): a missing body yields status 400 with an explicit
message and no side effects on all three endpoints; a verify request
with an empty claim yields 400 (with no fetch or scoring: the answer is
the same for every oracle, as all are universally quantified); a
register request with an empty required field yields the structured
failure object with HTTP status 200, inserting no row; login performs no
field-level validation of its own. -/
theorem C7_validation (hash : String → String) (db : Db)
    (key : Option String) (http : HttpOutcome)
    (vec : List String → Except String (List ℚ)) :
    verify key http vec none = (400, .err "No JSON data provided") ∧
    (∀ b : VerifyBody, pyStrip b.claim = "" →
        verify key http vec (some b) = (400, .err "No claim provided")) ∧
    register hash db none = (db, 400, .failure "No data provided") ∧
    (∀ b : RegisterBody,
        (pyStrip b.name = "" ∨ pyStrip b.email = "" ∨
          pyStrip b.password = "") →
        register hash db (some b) =
          (db, 200, .failure "All fields are required")) ∧
    login hash db none = (400, .failure "No data provided") := by
  refine ⟨rfl, fun b hb => ?_, rfl, fun b hb => ?_, rfl⟩
  · simp [verify, hb]
  · simp [register, hb]

/-- Witness for C7 (amended) at concrete invalid requests. -/
theorem C7_witness :
    (pyStrip " " = "" ∧
      verify none (.exn "x") (fun _ => .error "x") (some { claim := " " }) =
        (400, .err "No claim provided")) ∧
    ((pyStrip "" = "" ∨ pyStrip "e@f" = "" ∨ pyStrip "pw" = "") ∧
      register cxHash []
          (some { name := "", email := "e@f", password := "pw" }) =
        ([], 200, .failure "All fields are required")) :=
  ⟨⟨by decide,
      (C7_validation cxHash [] none (.exn "x") (fun _ => .error "x")).2.1
        { claim := " " } (by decide)⟩,
   ⟨Or.inl (by decide),
      (C7_validation cxHash [] none (.exn "x") (fun _ => .error "x")).2.2.2.1
        { name := "", email := "e@f", password := "pw" }
        (Or.inl (by decide))⟩⟩

/-- When two documents share no token, every vocabulary term has a zero
count in one of them, so the tf-idf dot product is zero and the cosine
similarity is zero whatever the idf weights and the norms are. -/
theorem cosineSim_eq_zero_of_disjoint (sq : ℚ → ℚ) (V : List String)
    (idf : String → ℚ) (d1 d2 : Doc) (h : ∀ t ∈ d1, t ∉ d2) :
    cosineSim sq V idf d1 d2 = 0 := by
  have hdot : dotV V (tfidf idf d1) (tfidf idf d2) = 0 := by
    refine List.sum_eq_zero ?_
    intro x hx
    obtain ⟨t, _, rfl⟩ := List.mem_map.mp hx
    by_cases ht : t ∈ d1
    · have h2 : d2.count t = 0 := List.count_eq_zero.mpr (h t ht)
      simp [tfidf, h2]
    · have h1 : d1.count t = 0 := List.count_eq_zero.mpr ht
      simp [tfidf, h1]
  simp [cosineSim, hdot]

/-- Folding `max` over a list of zeros from a zero accumulator stays
zero. -/
theorem foldl_max_zeros (xs : List ℚ) (h : ∀ x ∈ xs, x = 0) :
    xs.foldl max 0 = 0 := by
  induction xs with
  | nil => rfl
  | cons y ys ih =>
    have hy : y = (0 : ℚ) := h y (by simp)
    rw [List.foldl_cons, hy, max_self]
    exact ih (fun z hz => h z (by simp [hz]))

/-- The maximum of a non-empty list of zeros is zero. -/
theorem maxSim_eq_zero (sims : List ℚ) (hne : sims ≠ [])
    (h : ∀ x ∈ sims, x = 0) : maxSim sims = 0 := by
  cases sims with
  | nil => exact absurd rfl hne
  | cons x xs =>
    have hx : x = 0 := h x (by simp)
    subst hx
    exact foldl_max_zeros xs (fun z hz => h z (by simp [hz]))

/-- C9: if the statement shares no vocabulary token (after stop-word
removal) with any article, every per-article cosine similarity is zero,
so a vectorization oracle reporting those similarities sends the scorer
into the Likely False branch with confidence
round(min((1-0)*60, 70), 2) = 60. -/
theorem C9_disjoint_vocabulary (sq : ℚ → ℚ) (idf : String → ℚ)
    (V : List String) (stmtDoc : Doc) (articleDocs : List Doc)
    (vec : List String → Except String (List ℚ))
    (statement : String) (articles : List String)
    (hne : articles ≠ [])
    (hlen : articleDocs.length = articles.length)
    (hdisj : ∀ a ∈ articleDocs, ∀ t ∈ stmtDoc, t ∉ a)
    (hvec : vec (statement :: articles) =
      .ok (articleDocs.map fun a => cosineSim sq V idf stmtDoc a)) :
    (∀ a ∈ articleDocs, cosineSim sq V idf stmtDoc a = 0) ∧
    (scoreArticles vec statement articles).verification = "Likely False" ∧
    (scoreArticles vec statement articles).confidence = 60 := by
  have hzero : ∀ a ∈ articleDocs, cosineSim sq V idf stmtDoc a = 0 :=
    fun a ha =>
      cosineSim_eq_zero_of_disjoint sq V idf _ _ (fun t ht => hdisj a ha t ht)
  have hall : ∀ x ∈ articleDocs.map (fun a => cosineSim sq V idf stmtDoc a),
      x = (0 : ℚ) := by
    intro x hx
    obtain ⟨a, ha, rfl⟩ := List.mem_map.mp hx
    exact hzero a ha
  have hdocne : articleDocs ≠ [] := by
    intro h0
    apply hne
    rw [← List.length_eq_zero, ← hlen, h0]
    rfl
  have hsne : articleDocs.map (fun a => cosineSim sq V idf stmtDoc a) ≠ [] := by
    simpa using hdocne
  have hmax : maxSim (articleDocs.map fun a => cosineSim sq V idf stmtDoc a) = 0 :=
    maxSim_eq_zero _ hsne hall
  have havg : avgSim (articleDocs.map fun a => cosineSim sq V idf stmtDoc a) = 0 := by
    simp [avgSim, List.sum_eq_zero hall]
  have hres : scoreArticles vec statement articles =
      scoreSims statement articles
        (articleDocs.map fun a => cosineSim sq V idf stmtDoc a) := by
    simp [scoreArticles, scoreNonEmpty, hne, hvec]
  refine ⟨hzero, ?_, ?_⟩ <;> rw [hres] <;>
    · simp only [scoreSims, hmax, havg]
      norm_num [round2, roundHalfEven]

/-- Witness for C9 at one-token documents sharing no term. -/
theorem C9_witness :
    ((["art"] : List String) ≠ [] ∧
      ([["bb"]] : List Doc).length = (["art"] : List String).length ∧
      (∀ a ∈ ([["bb"]] : List Doc), ∀ t ∈ (["aa"] : Doc), t ∉ a) ∧
      c9vec ("s" :: ["art"]) =
        .ok (([["bb"]] : List Doc).map
          fun a => cosineSim id ["aa", "bb"] (fun _ => 1) ["aa"] a)) ∧
    ((∀ a ∈ ([["bb"]] : List Doc),
        cosineSim id ["aa", "bb"] (fun _ => 1) ["aa"] a = 0) ∧
      (scoreArticles c9vec "s" ["art"]).verification = "Likely False" ∧
      (scoreArticles c9vec "s" ["art"]).confidence = 60) :=
  ⟨⟨by simp, rfl, by decide, rfl⟩,
    C9_disjoint_vocabulary id (fun _ => 1) ["aa", "bb"] ["aa"] [["bb"]]
      c9vec "s" ["art"] (by simp) rfl (by decide) rfl⟩

end TruthFort
